import Mathlib

set_option maxRecDepth 8000

/-!
# Verification of `madrid_enricher.py`

A shallow embedding of the enrichment service in `src/madrid_enricher.py`:
the value coercion `_coerce_value`, the JSON-fallback parsing step of
`call_llm_fill`, the SQL `UPDATE` issued by `update_row` (its SET clause and
WHERE clause semantics), the key-preservation fixup in `enrich_all_nulls`,
and the batch driver `enrich_all_nulls` itself, modelled as a state machine
over an abstract warehouse and an abstract model oracle.

Python floats are modelled as rationals (every float value exercised below is
exactly representable); Python exceptions are modelled as `Except` errors;
the BigQuery warehouse and the LLM call are abstracted into an `Env` record
of oracles so that the driver's control flow is exactly the source's.
-/

namespace MadridEnricher

/-- A Python value as it flows through `_coerce_value` and the patch dicts:
`None`, a string, an int, or a float (modelled as an exact rational). -/
inductive PyVal where
  | none
  | str (s : String)
  | int (n : Int)
  | float (q : ℚ)
deriving DecidableEq

/-- Python `str(val)` for the values above (floats with integral value render
with a trailing `.0`, as CPython does). -/
def pyStr : PyVal → String
  | PyVal.none => "None"
  | PyVal.str s => s
  | PyVal.int n => toString n
  | PyVal.float q => if q.den = 1 then toString q.num ++ ".0" else toString q

/-- Python `str.strip()` on the character list: drop whitespace from both
ends. -/
def listTrim (l : List Char) : List Char :=
  ((l.dropWhile Char.isWhitespace).reverse.dropWhile Char.isWhitespace).reverse

/-- Python `s.strip()`. -/
def strTrim (s : String) : String := String.mk (listTrim s.data)

/-- Python `s.lower()` (ASCII case folding suffices for the values here). -/
def strLower (s : String) : String := String.mk (s.data.map Char.toLower)

/-- Python `s.replace(",", "")`: removing every comma. -/
def removeCommas (s : String) : String :=
  String.mk (s.data.filter (fun c => c ≠ ','))

/-- Digit run to a natural number. -/
def digitsVal (l : List Char) : Nat :=
  l.foldl (fun acc c => acc * 10 + (c.toNat - 48)) 0

/-- A non-empty all-digit run, parsed; `Option.none` otherwise. -/
def parseDigits (l : List Char) : Option Nat :=
  if !l.isEmpty && l.all Char.isDigit then Option.some (digitsVal l)
  else Option.none

/-- Python `int(s)` on a string: optional sign around a non-empty digit run,
surrounding whitespace allowed; `Option.none` models the `ValueError`. -/
def pyParseInt (s : String) : Option Int :=
  match listTrim s.data with
  | '-' :: rest => (parseDigits rest).map (fun n => -(n : Int))
  | '+' :: rest => (parseDigits rest).map (fun n => (n : Int))
  | l => (parseDigits l).map (fun n => (n : Int))

/-- Python `float(s)` on a string, restricted to plain decimal notation
(optional sign, digits with at most one dot); `Option.none` models the
`ValueError`. -/
def pyParseFloat (s : String) : Option ℚ :=
  let t := listTrim s.data
  let sign : ℚ := if t.headD ' ' = '-' then -1 else 1
  let r := match t with
    | '-' :: rest => rest
    | '+' :: rest => rest
    | l => l
  if r.contains '.' then
    let ip := r.takeWhile (fun c => c ≠ '.')
    let fp := (r.dropWhile (fun c => c ≠ '.')).drop 1
    if (ip ++ fp).all Char.isDigit && (!ip.isEmpty || !fp.isEmpty)
        && !(fp.contains '.') then
      Option.some (sign * ((digitsVal ip : ℚ) + (digitsVal fp : ℚ) / ((10 : ℚ) ^ fp.length)))
    else Option.none
  else
    (parseDigits r).map (fun n => sign * (n : ℚ))

/-- `TARGET_COLS` — the maintained business columns (source lines 26–44). -/
def TARGET_COLS : List String :=
  ["category", "sub_category", "city", "site_event_entity", "website",
   "owner_fever_new", "contacted", "ticketing_with",
   "counterpart_for_ticketing_conversation", "visitors",
   "visitors_per_event_capacity", "atp", "gtv", "event_size_segment",
   "private_public", "rfp", "comments"]

/-- `NUMERIC_FIELDS` (source line 47). -/
def NUMERIC_FIELDS : List String :=
  ["visitors", "visitors_per_event_capacity", "atp", "gtv"]

/-- `BOOLISH_FIELDS` (source line 48). -/
def BOOLISH_FIELDS : List String := ["contacted"]

/-- `_coerce_value` (source lines 54–74): `None` passes through; numeric
columns keep int/float values and otherwise strip commas and parse (float if
a dot is present, else int), returning `None` on failure; the boolean-ish
column normalizes to `"Yes"`, `"No"` or `None`; everything else becomes the
trimmed string. -/
def coerceValue (col : String) (val : PyVal) : PyVal :=
  if val = PyVal.none then PyVal.none
  else if col ∈ NUMERIC_FIELDS then
    match val with
    | PyVal.int n => PyVal.int n
    | PyVal.float q => PyVal.float q
    | _ =>
      let s := strTrim (removeCommas (pyStr val))
      if s.data.contains '.' then
        match pyParseFloat s with
        | Option.some q => PyVal.float q
        | Option.none => PyVal.none
      else
        match pyParseInt s with
        | Option.some n => PyVal.int n
        | Option.none => PyVal.none
  else if col ∈ BOOLISH_FIELDS then
    let s := strLower (strTrim (pyStr val))
    if s ∈ ["yes", "true", "y", "1"] then PyVal.str "Yes"
    else if s ∈ ["no", "false", "n", "0"] then PyVal.str "No"
    else PyVal.none
  else PyVal.str (strTrim (pyStr val))

/-- The numeric value carried by a coerced `PyVal`, if any (Python `==`
identifies `40000000` and `40000000.0`). -/
def pyNumVal : PyVal → Option ℚ
  | PyVal.int n => Option.some (n : ℚ)
  | PyVal.float q => Option.some q
  | _ => Option.none

/-- The cleaning loop at the end of `call_llm_fill` (source lines 172–176):
for every target column, coerce the parsed object's value for that key
(`j.get(col)` is `PyVal.none` when the key is absent). -/
def cleanedPatch (j : String → PyVal) : String → PyVal :=
  fun col => coerceValue col (j col)

/- ===== JSON-fallback extraction in `call_llm_fill` (lines 163–170) ===== -/

/-- Index of the first occurrence of a character in a list, if any. -/
def listFind? : List Char → Char → Option Nat
  | [], _ => Option.none
  | a :: as, c => if a = c then Option.some 0 else (listFind? as c).map (· + 1)

/-- Python `text.find(c)`: first index, or `-1` when absent. -/
def pyFind (s : String) (c : Char) : Int :=
  match listFind? s.data c with
  | Option.some i => Int.ofNat i
  | Option.none => -1

/-- Index of the last occurrence of a character in a list, if any. -/
def listRfind? (l : List Char) (c : Char) : Option Nat :=
  (listFind? l.reverse c).map (fun i => l.length - 1 - i)

/-- Python `text.rfind(c)`: last index, or `-1` when absent. -/
def pyRfind (s : String) (c : Char) : Int :=
  match listRfind? s.data c with
  | Option.some i => Int.ofNat i
  | Option.none => -1

/-- Python slice `l[a:b]` (step 1): negative indices count from the end,
then both bounds are clamped to `[0, len]`. -/
def listSlice (l : List Char) (a b : Int) : List Char :=
  (l.take (if b < 0 then (Int.ofNat l.length + b).toNat
           else (min b (Int.ofNat l.length)).toNat)).drop
    (if a < 0 then (Int.ofNat l.length + a).toNat
     else (min a (Int.ofNat l.length)).toNat)

/-- Python slice `s[a:b]` on a string. -/
def pySlice (s : String) (a b : Int) : String := String.mk (listSlice s.data a b)

/-- The fallback extraction `text[text.find("\x7b") : text.rfind("\x7d") + 1]`
from `call_llm_fill` (source lines 168–170). -/
def extractBraced (text : String) : String :=
  pySlice text (pyFind text '{') (pyRfind text '}' + 1)

/-- The two-stage parse in `call_llm_fill` (source lines 163–170), with the
JSON parser abstracted: try the whole text; on failure, parse the substring
from the first opening brace to the last closing brace. `Option.none` models
the exception of the second `json.loads` propagating to the caller. -/
def parseLlmResponse {J : Type} (parse : String → Option J) (text : String) : Option J :=
  match parse text with
  | Option.some j => Option.some j
  | Option.none => parse (extractBraced text)

/- ===== `update_row` (source lines 199–219) ===== -/

/-- The SET clause built by `update_row` (source line 202):
`", ".join(f"\x7bcol\x7d = @\x7bcol\x7d" for col in TARGET_COLS)`. -/
def updateSets : String :=
  String.intercalate ", " (TARGET_COLS.map (fun c => c ++ " = @" ++ c))

/-- Semantics of executing that SET clause on a matched row: every target
column receives the bound patch parameter `@col` unconditionally; other
columns keep their value. -/
def applyUpdate (values row : String → PyVal) : String → PyVal :=
  fun c => if c ∈ TARGET_COLS then values c else row c

/-- Semantics claimed by the spec for the SET clause, for comparison:
`col = COALESCE(col, @col)` — the patch value is written only when the
stored value is NULL. -/
def applyUpdateSpec (values row : String → PyVal) : String → PyVal :=
  fun c =>
    if c ∈ TARGET_COLS then
      if row c = PyVal.none then values c else row c
    else row c

/-- The business key dict built in `enrich_all_nulls` (source lines 244–248)
and consumed by `update_row`; each component may be `None`. -/
structure KeyD where
  site_event_entity : Option String
  city : Option String
  website : Option String
deriving DecidableEq

/-- SQL `=` on two nullable STRING operands: true only when both are non-null
and equal (a NULL operand makes the comparison UNKNOWN, which WHERE treats
as not matching). -/
def sqlEqOpt : Option String → Option String → Bool
  | Option.some a, Option.some b => a == b
  | _, _ => false

/-- Semantics of the WHERE clause of `update_row` (source lines 206–208) on a
row's key columns: plain SQL equality on `site_event_entity` against
`@k_name = key["site_event_entity"]`, and `COALESCE(col, '')` equality on
`city` and `website` against `@k_city = key.get("city") or ""` and
`@k_site = key.get("website") or ""`. -/
def rowMatches (rName rCity rSite : Option String) (k : KeyD) : Bool :=
  sqlEqOpt rName k.site_event_entity
    && (rCity.getD "" == k.city.getD "")
    && (rSite.getD "" == k.website.getD "")

/-- Modelled from the spec: row matching with IFNULL/COALESCE wrapping on
EVERY key column, as §4.4 of the spec describes, for comparison with
`rowMatches`. -/
def rowMatchesSpec (rName rCity rSite : Option String) (k : KeyD) : Bool :=
  (rName.getD "" == k.site_event_entity.getD "")
    && (rCity.getD "" == k.city.getD "")
    && (rSite.getD "" == k.website.getD "")

/- ===== `enrich_all_nulls` (source lines 230–265) ===== -/

/-- The classes of error a model call can raise (the source treats them all
identically: no `try`/`except` surrounds the call). -/
inductive LlmErr where
  | rateLimit
  | parseError
  | apiError
deriving DecidableEq

/-- A warehouse write failure raised by `update_row`. -/
inductive WriteErr where
  | fail
deriving DecidableEq

/-- An exception escaping the `enrich_all_nulls` handler: the `ValueError`
of `int()`/`float()` on a malformed query parameter, an error from the model
call, or an error from the warehouse write. -/
inductive RunError where
  | valueError
  | llmError (e : LlmErr)
  | writeError (e : WriteErr)
deriving DecidableEq

/-- A fetched row, reduced to its business-key columns (the remaining target
columns are consumed only by the abstracted model call). -/
structure RowD where
  site_event_entity : Option String
  city : Option String
  website : Option String
deriving DecidableEq

/-- The key dict built from a fetched row (source lines 244–248). -/
def keyOf (r : RowD) : KeyD := ⟨r.site_event_entity, r.city, r.website⟩

/-- The external collaborators of the driver, abstracted: the warehouse
fetch (`fetch_rows_with_nulls`), the whole model call + parse + coercion
(`call_llm_fill`, which may raise), and the warehouse write (`update_row`,
which may raise). `W` is the warehouse state; a fetch does not change it. -/
structure Env (W : Type) where
  fetch : W → Int → List RowD
  llm : RowD → Except LlmErr (String → PyVal)
  update : W → KeyD → (String → PyVal) → Except WriteErr W

/-- Python truthiness of a `PyVal` (`not filled.get(...)` in the source). -/
def pyTruthy : PyVal → Bool
  | PyVal.none => false
  | PyVal.str s => !s.isEmpty
  | PyVal.int n => n != 0
  | PyVal.float q => q != 0

/-- A raw optional string as a `PyVal` (`None` stays `None`). -/
def optVal : Option String → PyVal
  | Option.some s => PyVal.str s
  | Option.none => PyVal.none

/-- The identity-field fixup of `enrich_all_nulls` (source lines 253–259):
a falsy `site_event_entity` is replaced by the row's original value (which
may itself be `None`), and falsy `city`/`website` by the original value
defaulted to `""` (Python `key.get(...) or ""`). -/
def fixKeys (filled : String → PyVal) (key : KeyD) : String → PyVal := fun c =>
  if c = "site_event_entity" then
    if pyTruthy (filled c) then filled c else optVal key.site_event_entity
  else if c = "city" then
    if pyTruthy (filled c) then filled c else PyVal.str (key.city.getD "")
  else if c = "website" then
    if pyTruthy (filled c) then filled c else PyVal.str (key.website.getD "")
  else filled c

/-- One iteration of the inner row loop (source lines 243–263): call the
model, fix the key fields, write. An error from either collaborator
propagates (the source has no `try`/`except`); a write failure leaves the
warehouse unchanged. -/
def processRow {W : Type} (env : Env W) (w : W) (r : RowD) : W × Option RunError :=
  match env.llm r with
  | Except.error e => (w, Option.some (RunError.llmError e))
  | Except.ok filled =>
    match env.update w (keyOf r) (fixKeys filled (keyOf r)) with
    | Except.error e => (w, Option.some (RunError.writeError e))
    | Except.ok w2 => (w2, Option.none)

/-- The inner row loop over one fetched batch, threading the warehouse state
and the `total_updated` counter; the first error aborts the loop. -/
def processRows {W : Type} (env : Env W) : List RowD → W → Nat → W × Nat × Option RunError
  | [], w, acc => (w, acc, Option.none)
  | r :: rs, w, acc =>
    match processRow env w r with
    | (w2, Option.some e) => (w2, acc, Option.some e)
    | (w2, Option.none) => processRows env rs w2 (acc + 1)

/-- Outcome of the batch loop: final warehouse state, `total_updated`,
number of fetch cycles executed (the loop counter, not reported by the
endpoint), and the escaping exception, if any. -/
structure LoopResult (W : Type) where
  w : W
  updated : Nat
  batchesDone : Nat
  err : Option RunError
deriving DecidableEq

/-- The batch loop `for i in range(max_batches)` (source lines 238–263):
fetch a page; stop when it is empty; otherwise process every row, an error
aborting everything. -/
def runBatches {W : Type} (env : Env W) (b : Int) : Nat → W → Nat → LoopResult W
  | 0, w, acc => ⟨w, acc, 0, Option.none⟩
  | Nat.succ k, w, acc =>
    let rows := env.fetch w b
    if rows.isEmpty then ⟨w, acc, 1, Option.none⟩
    else
      match processRows env rows w acc with
      | (w2, acc2, Option.some e) => ⟨w2, acc2, 1, Option.some e⟩
      | (w2, acc2, Option.none) =>
        let res := runBatches env b k w2 acc2
        ⟨res.w, res.updated, res.batchesDone + 1, res.err⟩

/-- The recognized query parameters of the endpoint (absent ⇒ default). -/
structure Args where
  batch : Option String
  max_batches : Option String
  sleep : Option String

/-- The JSON body returned by the endpoint, as key/value pairs. -/
abbrev RespBody := List (String × Int)

/-- The `enrich_all_nulls` handler (source lines 230–265): parse the three
numeric query parameters (an unparsable one raises `ValueError` before any
warehouse or model work), run the batch loop, and on normal termination
return the body `[("updated_rows", total_updated)]` with status 200. An
escaping exception yields no response body (the framework turns it into a
500). -/
def enrichAllNulls {W : Type} (env : Env W) (w : W) (a : Args) :
    W × Except RunError RespBody :=
  match pyParseInt (a.batch.getD "25") with
  | Option.none => (w, Except.error RunError.valueError)
  | Option.some batchN =>
    match pyParseInt (a.max_batches.getD "100") with
    | Option.none => (w, Except.error RunError.valueError)
    | Option.some maxB =>
      match pyParseFloat (a.sleep.getD "0.1") with
      | Option.none => (w, Except.error RunError.valueError)
      | Option.some _ =>
        let res := runBatches env batchN maxB.toNat w 0
        match res.err with
        | Option.some e => (res.w, Except.error e)
        | Option.none => (res.w, Except.ok [("updated_rows", (res.updated : Int))])

/- ===== Concrete instances used by counterexamples and witnesses ===== -/

/-- A sample fetched row with a fully non-null key. -/
def rowA : RowD := ⟨Option.some "Teatro Real", Option.some "Madrid", Option.some "teatroreal.es"⟩

/-- A sample fetched row with a null website. -/
def rowB : RowD := ⟨Option.some "Sala B", Option.some "Madrid", Option.none⟩

/-- A sample fetched row with a null city. -/
def rowC : RowD := ⟨Option.some "Museo C", Option.none, Option.some "museoc.es"⟩

/-- A patch whose every column is a non-empty string. -/
def patchX : String → PyVal := fun _ => PyVal.str "x"

/-- Harness whose model call rate-limits on `rowB` and whose writes succeed,
the warehouse state counting committed rows. -/
def envC2 : Env Nat where
  fetch := fun _ _ => [rowA, rowB, rowC]
  llm := fun r => if r = rowB then Except.error LlmErr.rateLimit else Except.ok patchX
  update := fun w _ _ => Except.ok (w + 1)

/-- Harness whose model call fails with a non-rate-limit API error on `rowB`. -/
def envC3 : Env Nat where
  fetch := fun _ _ => [rowA, rowB, rowC]
  llm := fun r => if r = rowB then Except.error LlmErr.apiError else Except.ok patchX
  update := fun w _ _ => Except.ok (w + 1)

/-- Harness with inexhaustible rows and always-successful processing. -/
def envC4 : Env Nat where
  fetch := fun _ _ => [rowA, rowB]
  llm := fun _ => Except.ok patchX
  update := fun w _ _ => Except.ok (w + 1)

/-- Harness where the rate limit hits the second row of `[rowC, rowB]`. -/
def envW2 : Env Nat where
  fetch := fun _ _ => [rowC, rowB]
  llm := fun r => if r = rowB then Except.error LlmErr.rateLimit else Except.ok patchX
  update := fun w _ _ => Except.ok (w + 1)

/-- Harness where the warehouse write fails once one row has been
committed. -/
def envW3 : Env Nat where
  fetch := fun _ _ => [rowA, rowB, rowC]
  llm := fun _ => Except.ok patchX
  update := fun w _ _ => if w = 1 then Except.error WriteErr.fail else Except.ok (w + 1)

/-- Trivial harness with no rows, for parameter-validation statements. -/
def envTriv : Env Unit where
  fetch := fun _ _ => []
  llm := fun _ => Except.error LlmErr.apiError
  update := fun w _ _ => Except.ok w

/-- A stored row whose `category` is non-null and whose other columns are
null. -/
def rowBefore : String → PyVal := fun c =>
  if c = "category" then PyVal.str "A - Music" else PyVal.none

/-- A model patch proposing a different `category`. -/
def patchOther : String → PyVal := fun c =>
  if c = "category" then PyVal.str "B - Museums" else PyVal.str "x"

/- ===================== Helper lemmas ===================== -/

/-- A list with a distinguished element is not empty. -/
theorem isEmpty_append_cons {α : Type} (pre post : List α) (r : α) :
    (pre ++ r :: post).isEmpty = false := by
  cases pre <;> rfl

/-- A truthy Python value is not `None`. -/
theorem pyTruthy_ne_none (v : PyVal) (h : pyTruthy v = true) : v ≠ PyVal.none := by
  intro hv
  subst hv
  simp [pyTruthy] at h

/-- Processing a batch prefix that raises no error steps the row loop to the
prefix's final state. -/
theorem processRows_append_none {W : Type} (env : Env W) (l₁ l₂ : List RowD)
    (w : W) (acc : Nat) (w' : W) (acc' : Nat)
    (h : processRows env l₁ w acc = (w', acc', Option.none)) :
    processRows env (l₁ ++ l₂) w acc = processRows env l₂ w' acc' := by
  induction l₁ generalizing w acc with
  | nil =>
    simp only [processRows, Prod.mk.injEq, and_true] at h
    obtain ⟨rfl, rfl⟩ := h
    rfl
  | cons r rs ih =>
    rw [List.cons_append]
    simp only [processRows] at h ⊢
    rcases hpr : processRow env w r with ⟨w2, e?⟩
    rw [hpr] at h
    cases e? with
    | some e => simp at h
    | none => exact ih _ _ h

/-- A model-call or write error on the first not-yet-processed row makes the
row loop of a batch return that error. -/
theorem runBatches_abort {W : Type} (env : Env W) (b : Int) (k : Nat)
    (w w' w2 : W) (acc acc' : Nat) (pre post : List RowD) (r : RowD) (e : RunError)
    (hf : env.fetch w b = pre ++ r :: post)
    (hpre : processRows env pre w acc = (w', acc', Option.none))
    (hr : processRow env w' r = (w2, Option.some e)) :
    runBatches env b (k + 1) w acc = ⟨w2, acc', 1, Option.some e⟩ := by
  have h2 : processRows env (pre ++ r :: post) w acc = (w2, acc', Option.some e) := by
    rw [processRows_append_none env pre (r :: post) w acc w' acc' hpre]
    simp only [processRows]
    rw [hr]
  simp only [runBatches]
  rw [hf, isEmpty_append_cons]
  simp only [Bool.false_eq_true, if_false]
  rw [h2]

/-- A model call raising on some row of the loop's first error-free point
makes `processRow` report that error without touching the warehouse. -/
theorem processRow_llm_error {W : Type} (env : Env W) (w : W) (r : RowD) (e : LlmErr)
    (h : env.llm r = Except.error e) :
    processRow env w r = (w, Option.some (RunError.llmError e)) := by
  simp only [processRow]
  rw [h]

/-- If every row processes without error, the row loop over a batch ends
without error. -/
theorem processRows_ok {W : Type} (env : Env W)
    (hok : ∀ (w : W) (r : RowD), (processRow env w r).2 = Option.none) :
    ∀ (rows : List RowD) (w : W) (acc : Nat),
      ∃ w2 n, processRows env rows w acc = (w2, n, Option.none) := by
  intro rows
  induction rows with
  | nil => exact fun w acc => ⟨w, acc, rfl⟩
  | cons r rs ih =>
    intro w acc
    have h := hok w r
    rcases hpr : processRow env w r with ⟨w2, e?⟩
    rw [hpr] at h
    simp only at h
    subst h
    obtain ⟨w3, n, h3⟩ := ih w2 (acc + 1)
    refine ⟨w3, n, ?_⟩
    simp only [processRows]
    rw [hpr]
    exact h3

/-- With inexhaustible rows and error-free processing, the batch loop
executes exactly its ceiling of fetch cycles and ends without error. -/
theorem runBatches_ok {W : Type} (env : Env W) (b : Int)
    (hne : ∀ w : W, env.fetch w b ≠ [])
    (hok : ∀ (w : W) (r : RowD), (processRow env w r).2 = Option.none) :
    ∀ (k : Nat) (w : W) (acc : Nat),
      (runBatches env b k w acc).batchesDone = k ∧
      (runBatches env b k w acc).err = Option.none := by
  intro k
  induction k with
  | zero => exact fun w acc => ⟨rfl, rfl⟩
  | succ k ih =>
    intro w acc
    have hemp : (env.fetch w b).isEmpty = false := by
      rcases hfe : env.fetch w b with _ | ⟨x, xs⟩
      · exact absurd hfe (hne w)
      · rfl
    obtain ⟨w2, n, hpr⟩ := processRows_ok env hok (env.fetch w b) w acc
    have hstep : runBatches env b (k + 1) w acc =
        ⟨(runBatches env b k w2 n).w, (runBatches env b k w2 n).updated,
         (runBatches env b k w2 n).batchesDone + 1, (runBatches env b k w2 n).err⟩ := by
      simp only [runBatches, hemp, Bool.false_eq_true, if_false]
      rw [hpr]
    rw [hstep]
    obtain ⟨h1, h2⟩ := ih w2 n
    exact ⟨by rw [h1], h2⟩

/-- The handler, for any arguments whose three parameters parse, reduces to
the batch loop's outcome. -/
theorem enrichAllNulls_eq {W : Type} (env : Env W) (w : W) (a : Args)
    (bN : Int) (mBn : Nat) (q : ℚ)
    (hb : pyParseInt (a.batch.getD "25") = Option.some bN)
    (hm : pyParseInt (a.max_batches.getD "100") = Option.some (Int.ofNat mBn))
    (hs : pyParseFloat (a.sleep.getD "0.1") = Option.some q) :
    enrichAllNulls env w a =
      (match (runBatches env bN mBn w 0).err with
       | Option.some e => ((runBatches env bN mBn w 0).w, Except.error e)
       | Option.none => ((runBatches env bN mBn w 0).w,
           Except.ok [("updated_rows", ((runBatches env bN mBn w 0).updated : Int))])) := by
  unfold enrichAllNulls
  rw [hb, hm, hs]
  rfl

/- ===================== Claim theorems ===================== -/

/-- C1 (counterexample): the claim "a non-null existing value is never
overwritten because the UPDATE writes `col = COALESCE(col, @col)`" is false:
on a row whose `category` is non-null, the UPDATE installs the patch's
different value. -/
theorem C1_counterexample :
    rowBefore "category" ≠ PyVal.none ∧
    applyUpdate patchOther rowBefore "category" ≠ rowBefore "category" := by
  decide

/-- C1 (amended): the SET clause built by `update_row` is `col = @col` for
every target column (no COALESCE), so after the UPDATE every target column
holds the patch value unconditionally, whatever the row held before. -/
theorem C1_update_unconditional :
    updateSets = "category = @category, sub_category = @sub_category, city = @city, site_event_entity = @site_event_entity, website = @website, owner_fever_new = @owner_fever_new, contacted = @contacted, ticketing_with = @ticketing_with, counterpart_for_ticketing_conversation = @counterpart_for_ticketing_conversation, visitors = @visitors, visitors_per_event_capacity = @visitors_per_event_capacity, atp = @atp, gtv = @gtv, event_size_segment = @event_size_segment, private_public = @private_public, rfp = @rfp, comments = @comments" ∧
    ∀ (values row : String → PyVal) (c : String), c ∈ TARGET_COLS →
      applyUpdate values row c = values c := by
  constructor
  · rfl
  · intro values row c hc
    simp only [applyUpdate, if_pos hc]

/-- C1 (witness): the amended statement applied to the concrete row and
patch at column `category`. -/
theorem C1_witness : applyUpdate patchOther rowBefore "category" = PyVal.str "B - Museums" :=
  C1_update_unconditional.2 patchOther rowBefore "category" (by decide)

/-- C2 (counterexample): with a model that rate-limits on the second row of
the first batch, the run does not terminate with a
`stopped_on_rate_limit` response: the exception escapes and no JSON body is
produced (one row was committed before the abort). -/
theorem C2_counterexample :
    enrichAllNulls envC2 0 ⟨Option.none, Option.none, Option.none⟩ =
      (1, Except.error (RunError.llmError LlmErr.rateLimit)) := by
  rfl

/-- C2 (amended): if the model call raises a rate-limit error on the first
not-yet-committed row of the first batch, the run terminates immediately
with that exception escaping uncaught (no response body, no status, no
count); the warehouse keeps exactly the rows committed strictly before it. -/
theorem C2_rate_limit_aborts {W : Type} (env : Env W) (w w' : W)
    (pre post : List RowD) (r : RowD) (acc' : Nat)
    (hf : env.fetch w 25 = pre ++ r :: post)
    (hpre : processRows env pre w 0 = (w', acc', Option.none))
    (hllm : env.llm r = Except.error LlmErr.rateLimit) :
    enrichAllNulls env w ⟨Option.none, Option.none, Option.none⟩ =
      (w', Except.error (RunError.llmError LlmErr.rateLimit)) := by
  have hr : processRow env w' r = (w', Option.some (RunError.llmError LlmErr.rateLimit)) :=
    processRow_llm_error env w' r LlmErr.rateLimit hllm
  have hrun : runBatches env 25 100 w 0 =
      ⟨w', acc', 1, Option.some (RunError.llmError LlmErr.rateLimit)⟩ :=
    runBatches_abort env 25 99 w w' w' 0 acc' pre post r _ hf hpre hr
  obtain ⟨q, hq⟩ : ∃ q, pyParseFloat ((Option.none : Option String).getD "0.1") = Option.some q :=
    ⟨_, rfl⟩
  rw [enrichAllNulls_eq env w ⟨Option.none, Option.none, Option.none⟩ 25 100 q rfl rfl hq, hrun]

/-- C2 (witness): the amended statement on a concrete harness where the rate
limit hits the second row. -/
theorem C2_witness :
    enrichAllNulls envW2 0 ⟨Option.none, Option.none, Option.none⟩ =
      (1, Except.error (RunError.llmError LlmErr.rateLimit)) :=
  C2_rate_limit_aborts envW2 0 1 [rowC] [] rowB 1 rfl rfl rfl

/-- C3 (counterexample): the claim "a non-rate-limit per-row error causes
only that row to be skipped and the driver continues" is false: an API error
on the second row aborts the entire run with an escaping exception (the
third row is never processed and no response is produced). -/
theorem C3_counterexample :
    enrichAllNulls envC3 0 ⟨Option.none, Option.none, Option.none⟩ =
      (1, Except.error (RunError.llmError LlmErr.apiError)) := by
  rfl

/-- C3 (amended): any per-row error — model error of any class or warehouse
write error — on the first not-yet-committed row aborts the whole run with
that exception escaping uncaught; no row is skipped and the loop does not
continue. -/
theorem C3_row_error_aborts {W : Type} (env : Env W) (w w' w2 : W)
    (pre post : List RowD) (r : RowD) (acc' : Nat) (e : RunError)
    (hf : env.fetch w 25 = pre ++ r :: post)
    (hpre : processRows env pre w 0 = (w', acc', Option.none))
    (hr : processRow env w' r = (w2, Option.some e)) :
    enrichAllNulls env w ⟨Option.none, Option.none, Option.none⟩ =
      (w2, Except.error e) := by
  have hrun : runBatches env 25 100 w 0 = ⟨w2, acc', 1, Option.some e⟩ :=
    runBatches_abort env 25 99 w w' w2 0 acc' pre post r e hf hpre hr
  obtain ⟨q, hq⟩ : ∃ q, pyParseFloat ((Option.none : Option String).getD "0.1") = Option.some q :=
    ⟨_, rfl⟩
  rw [enrichAllNulls_eq env w ⟨Option.none, Option.none, Option.none⟩ 25 100 q rfl rfl hq, hrun]

/-- C3 (witness): the amended statement on a concrete harness whose
warehouse write fails on the second row. -/
theorem C3_witness :
    enrichAllNulls envW3 0 ⟨Option.none, Option.none, Option.none⟩ =
      (1, Except.error (RunError.writeError WriteErr.fail)) :=
  C3_row_error_aborts envW3 0 1 1 [rowA] [rowC] rowB 1
    (RunError.writeError WriteErr.fail) rfl rfl rfl

/-- C4 (counterexample): with `max_batches = 2` and inexhaustible rows the
run does stop after the ceiling, but its response carries no `status` key at
all (in particular not `stopped_on_max_batches`): the body is exactly
`[("updated_rows", 4)]`. -/
theorem C4_counterexample :
    enrichAllNulls envC4 0 ⟨Option.none, Option.some "2", Option.none⟩ =
      (4, Except.ok [("updated_rows", 4)]) ∧
    List.lookup "status" [("updated_rows", (4 : Int))] = Option.none := by
  exact ⟨rfl, rfl⟩

/-- C4 (amended): given `max_batches = k` (as a parseable parameter): with a
fetch that always returns rows and error-free row processing, the driver
performs exactly `k` fetch cycles and then stops, the 200 response body
containing only `updated_rows`; and if instead the fetch comes back empty,
the loop stops early after that single fetch cycle, with the same
`updated_rows`-only body — no terminal-status field exists in the code in
either case. -/
theorem C4_max_batches {W : Type} (env : Env W) (w : W) (k : Nat) (ms : String)
    (hms : pyParseInt ms = Option.some (Int.ofNat k)) :
    ((∀ w2 : W, env.fetch w2 25 ≠ []) →
     (∀ (w2 : W) (r : RowD), (processRow env w2 r).2 = Option.none) →
      (runBatches env 25 k w 0).batchesDone = k ∧
      enrichAllNulls env w ⟨Option.none, Option.some ms, Option.none⟩ =
        ((runBatches env 25 k w 0).w,
         Except.ok [("updated_rows", ((runBatches env 25 k w 0).updated : Int))])) ∧
    (env.fetch w 25 = [] → 0 < k →
      runBatches env 25 k w 0 = ⟨w, 0, 1, Option.none⟩ ∧
      enrichAllNulls env w ⟨Option.none, Option.some ms, Option.none⟩ =
        (w, Except.ok [("updated_rows", (0 : Int))])) := by
  obtain ⟨q, hq⟩ : ∃ q, pyParseFloat ((Option.none : Option String).getD "0.1") = Option.some q :=
    ⟨_, rfl⟩
  constructor
  · intro hne hok
    obtain ⟨h1, h2⟩ := runBatches_ok env 25 hne hok k w 0
    refine ⟨h1, ?_⟩
    rw [enrichAllNulls_eq env w ⟨Option.none, Option.some ms, Option.none⟩ 25 k q rfl hms hq, h2]
  · intro hfe hk
    rcases k with _ | j
    · exact absurd hk (lt_irrefl 0)
    · have hrb : runBatches env 25 (j + 1) w 0 = ⟨w, 0, 1, Option.none⟩ := by
        simp only [runBatches, hfe]
        rfl
      refine ⟨hrb, ?_⟩
      rw [enrichAllNulls_eq env w ⟨Option.none, Option.some ms, Option.none⟩ 25 (j + 1) q rfl
          hms hq, hrb]
      rfl

/-- C4 (witness): the amended statement on the concrete inexhaustible
harness with `max_batches = 2` (exactly two fetch cycles), and on the empty
harness (one fetch cycle, early stop). -/
theorem C4_witness :
    (runBatches envC4 25 2 0 0).batchesDone = 2 ∧
    runBatches envTriv 25 2 () 0 = ⟨(), 0, 1, Option.none⟩ := by
  constructor
  · exact ((C4_max_batches envC4 0 2 "2" rfl).1
      (fun _ => List.cons_ne_nil rowA [rowB]) (fun _ _ => rfl)).1
  · exact ((C4_max_batches envTriv () 2 "2" rfl).2 rfl (by omega)).1

/-- C5 (counterexample): the claim "every key column is compared with
IFNULL/COALESCE wrapping" is false: a row whose `site_event_entity` is NULL
matches under the spec's all-null-safe comparison but never matches the
code's WHERE clause, whose `site_event_entity = @k_name` is plain SQL
equality. -/
theorem C5_counterexample :
    rowMatches Option.none (Option.some "Madrid") Option.none
        ⟨Option.none, Option.some "Madrid", Option.none⟩ = false ∧
    rowMatchesSpec Option.none (Option.some "Madrid") Option.none
        ⟨Option.none, Option.some "Madrid", Option.none⟩ = true := by
  decide

/-- C5 (amended): matching is null-safe (COALESCE to `''`) on `city` and
`website` only — any row with a non-null `site_event_entity` is matched by
the key built from it, including when its city or website is null — while
`site_event_entity` uses plain equality, so a row with a NULL
`site_event_entity` matches no key at all. -/
theorem C5_key_matching :
    (∀ (n : String) (c ws : Option String),
        rowMatches (Option.some n) c ws ⟨Option.some n, c, ws⟩ = true) ∧
    (∀ (c ws : Option String) (k : KeyD),
        rowMatches Option.none c ws k = false) := by
  constructor
  · intro n c ws
    simp [rowMatches, sqlEqOpt]
  · intro c ws k
    simp [rowMatches, sqlEqOpt]

/-- C5 (witness): a row with a null website is matched by its own key. -/
theorem C5_witness :
    rowMatches (Option.some "Sala B") (Option.some "Madrid") Option.none
        ⟨Option.some "Sala B", Option.some "Madrid", Option.none⟩ = true :=
  C5_key_matching.1 "Sala B" (Option.some "Madrid") Option.none

/-- C6 (counterexample): the claim "every value outside {yes,y,true,1} maps
to the empty string" is false: `"no"` maps to `"No"`, and an unrecognized
value maps to `None`, not `""`. -/
theorem C6_counterexample :
    coerceValue "contacted" (PyVal.str "no") = PyVal.str "No" ∧
    PyVal.str "No" ≠ PyVal.str "" ∧
    coerceValue "contacted" (PyVal.str "maybe") = PyVal.none := by
  decide

/-- C6 (amended): for every non-`None` value, the boolean-ish coercion of
`contacted` maps a case-insensitive (trimmed) match of {yes,true,y,1} to
`"Yes"`, a match of {no,false,n,0} to `"No"`, and anything else to `None`. -/
theorem C6_boolish (v : PyVal) (hv : v ≠ PyVal.none) :
    (strLower (strTrim (pyStr v)) ∈ ["yes", "true", "y", "1"] →
        coerceValue "contacted" v = PyVal.str "Yes") ∧
    (strLower (strTrim (pyStr v)) ∉ ["yes", "true", "y", "1"] →
        strLower (strTrim (pyStr v)) ∈ ["no", "false", "n", "0"] →
        coerceValue "contacted" v = PyVal.str "No") ∧
    (strLower (strTrim (pyStr v)) ∉ ["yes", "true", "y", "1"] →
        strLower (strTrim (pyStr v)) ∉ ["no", "false", "n", "0"] →
        coerceValue "contacted" v = PyVal.none) := by
  have hn : ¬ ("contacted" ∈ NUMERIC_FIELDS) := by decide
  have hb : "contacted" ∈ BOOLISH_FIELDS := by decide
  refine ⟨fun h1 => ?_, fun h1 h2 => ?_, fun h1 h2 => ?_⟩ <;>
    simp only [coerceValue, if_neg hv, if_neg hn, if_pos hb]
  · rw [if_pos h1]
  · rw [if_neg h1, if_pos h2]
  · rw [if_neg h1, if_neg h2]

/-- C6 (witness): the amended statement evaluated at `" True "`. -/
theorem C6_witness : coerceValue "contacted" (PyVal.str " True ") = PyVal.str "Yes" :=
  (C6_boolish (PyVal.str " True ") (by decide)).1 (by decide)

/-- C7 (confirmed): for every numeric target column, `"40,000,000"`,
`40000000` and `40000000.0` all coerce to the numeric value 40000000, and
`"not a number"` coerces to `None` instead of raising. -/
theorem C7_numeric_coercion (col : String) (h : col ∈ NUMERIC_FIELDS) :
    pyNumVal (coerceValue col (PyVal.str "40,000,000")) = Option.some (40000000 : ℚ) ∧
    pyNumVal (coerceValue col (PyVal.int 40000000)) = Option.some (40000000 : ℚ) ∧
    pyNumVal (coerceValue col (PyVal.float 40000000)) = Option.some (40000000 : ℚ) ∧
    coerceValue col (PyVal.str "not a number") = PyVal.none := by
  have h4 : col = "visitors" ∨ col = "visitors_per_event_capacity" ∨
      col = "atp" ∨ col = "gtv" := by
    simpa [NUMERIC_FIELDS] using h
  rcases h4 with rfl | rfl | rfl | rfl <;>
    exact ⟨by decide, by decide, by decide, by decide⟩

/-- C7 (witness): the confirmed statement at `gtv`. -/
theorem C7_witness :
    pyNumVal (coerceValue "gtv" (PyVal.str "40,000,000")) = Option.some (40000000 : ℚ) :=
  (C7_numeric_coercion "gtv" (by decide)).1

/-- The first occurrence of a character absent from the prefix is found at
the prefix's length. -/
theorem listFind?_append_cons (l₁ l₂ : List Char) (c : Char) (h : c ∉ l₁) :
    listFind? (l₁ ++ c :: l₂) c = Option.some l₁.length := by
  induction l₁ with
  | nil => simp [listFind?]
  | cons a as ih =>
    have ha : ¬ (a = c) := fun hac => h (hac ▸ List.mem_cons_self a as)
    have h2 : c ∉ as := fun hm => h (List.mem_cons_of_mem a hm)
    simp [listFind?, ha, ih h2]

/-- The last closing brace of a text of shape
`pre ++ "\x7b" ++ mid ++ "\x7d" ++ post` (no `\x7d` in `post`) sits right after
`pre` and `mid`. -/
theorem listRfind?_braced (pre mid post : List Char) (hpost : '}' ∉ post) :
    listRfind? (pre ++ '{' :: (mid ++ '}' :: post)) '}' =
      Option.some (pre.length + mid.length + 1) := by
  unfold listRfind?
  have hrev : (pre ++ '{' :: (mid ++ '}' :: post)).reverse
      = post.reverse ++ '}' :: (mid.reverse ++ '{' :: pre.reverse) := by
    simp [List.reverse_append, List.reverse_cons, List.append_assoc]
  rw [hrev, listFind?_append_cons _ _ '}' (by simpa using hpost)]
  simp only [Option.map_some', List.length_append, List.length_cons,
    List.length_reverse, Option.some.injEq]
  omega

/-- Slicing from the end of a prefix extracts a prefix of the suffix. -/
theorem listSlice_extract (pre inner : List Char) (m : Nat) (hm : m ≤ inner.length) :
    listSlice (pre ++ inner) (Int.ofNat pre.length) (Int.ofNat (pre.length + m))
      = inner.take m := by
  unfold listSlice
  simp only [Int.ofNat_eq_natCast, List.length_append]
  rw [if_neg (by omega : ¬ (((pre.length + m : Nat) : Int) < 0))]
  rw [if_neg (by omega : ¬ (((pre.length : Nat) : Int) < 0))]
  rw [(by omega :
        min (((pre.length + m : Nat)) : Int) (((pre.length + inner.length : Nat)) : Int)
          = (((pre.length + m : Nat)) : Int))]
  rw [(by omega :
        min (((pre.length : Nat)) : Int) (((pre.length + inner.length : Nat)) : Int)
          = (((pre.length : Nat)) : Int))]
  simp only [Int.toNat_ofNat]
  rw [List.take_append m, List.drop_left]

/-- C8 (confirmed): the two-stage response parse of `call_llm_fill` first
tries the whole text; when that parse fails on a text whose first `\x7b`
follows `pre` and whose last `\x7d` precedes `post`, it parses exactly the
substring from the first `\x7b` through the last `\x7d` (so fences or prose
around a JSON object are stripped), and a failure of that second parse
propagates to the caller. -/
theorem C8_parse_fallback {J : Type} (parse : String → Option J) (text : String)
    (pre mid post : List Char)
    (ht : text.data = pre ++ '{' :: (mid ++ '}' :: post))
    (hpre : '{' ∉ pre) (hpost : '}' ∉ post) :
    (∀ j, parse text = Option.some j → parseLlmResponse parse text = Option.some j) ∧
    (parse text = Option.none →
      parseLlmResponse parse text = parse (String.mk ('{' :: (mid ++ ['}'])))) := by
  have hfind : pyFind text '{' = Int.ofNat pre.length := by
    unfold pyFind
    rw [ht, listFind?_append_cons pre (mid ++ '}' :: post) '{' hpre]
  have hrfind : pyRfind text '}' = Int.ofNat (pre.length + mid.length + 1) := by
    unfold pyRfind
    rw [ht, listRfind?_braced pre mid post hpost]
  have htake : ('{' :: (mid ++ '}' :: post)).take (mid.length + 2) = '{' :: (mid ++ ['}']) := by
    rw [show mid.length + 2 = (mid.length + 1) + 1 from rfl, List.take_succ_cons]
    have h5 : (mid ++ '}' :: post).take (mid.length + 1) = mid ++ ('}' :: post).take 1 :=
      List.take_append 1
    rw [h5]
    rfl
  have hext : extractBraced text = String.mk ('{' :: (mid ++ ['}'])) := by
    unfold extractBraced pySlice
    rw [hfind, hrfind, ht]
    rw [show Int.ofNat (pre.length + mid.length + 1) + 1
        = Int.ofNat (pre.length + (mid.length + 2)) from rfl]
    rw [listSlice_extract pre ('{' :: (mid ++ '}' :: post)) (mid.length + 2)
        (by simp only [List.length_cons, List.length_append]; omega)]
    rw [htake]
  constructor
  · intro j hj
    unfold parseLlmResponse
    rw [hj]
  · intro hn
    unfold parseLlmResponse
    rw [hn, hext]

/-- C8 (witness): a JSON object surrounded by prose is recovered by the
fallback extraction and parsed. -/
theorem C8_witness :
    parseLlmResponse
        (fun s => if s = "\x7b\"k\": 1\x7d" then Option.some 42 else Option.none)
        "x\n\x7b\"k\": 1\x7d\ny" = Option.some 42 := by
  have h := C8_parse_fallback
      (fun s => if s = "\x7b\"k\": 1\x7d" then Option.some 42 else Option.none)
      "x\n\x7b\"k\": 1\x7d\ny"
      ['x', '\n'] ['"', 'k', '"', ':', ' ', '1'] ['\n', 'y']
      (by decide) (by decide) (by decide)
  rw [h.2 (by decide)]
  decide

/-- C9 (counterexample): the claim "a malformed numeric parameter is
rejected with HTTP 400 and an error body" is false: `batch=abc` makes the
handler raise an uncaught `ValueError` (the framework turns it into a 500
with no JSON error body), producing no 400 response. -/
theorem C9_counterexample :
    enrichAllNulls envTriv () ⟨Option.some "abc", Option.none, Option.none⟩ =
      ((), Except.error RunError.valueError) := by
  rfl

/-- C9 (amended): if any of `batch`, `max_batches` or `sleep` fails to parse
numerically, the handler raises an uncaught `ValueError` before any
warehouse or model work begins (the warehouse state is returned untouched
and no response body is produced). -/
theorem C9_param_error {W : Type} (env : Env W) (w : W) (a : Args)
    (h : pyParseInt (a.batch.getD "25") = Option.none ∨
         pyParseInt (a.max_batches.getD "100") = Option.none ∨
         pyParseFloat (a.sleep.getD "0.1") = Option.none) :
    enrichAllNulls env w a = (w, Except.error RunError.valueError) := by
  unfold enrichAllNulls
  rcases h with h | h | h
  · rw [h]
  · rcases hb : pyParseInt (a.batch.getD "25") with _ | bN
    · rfl
    · rw [h]
  · rcases hb : pyParseInt (a.batch.getD "25") with _ | bN
    · rfl
    · rcases hm : pyParseInt (a.max_batches.getD "100") with _ | mB
      · rfl
      · rw [h]

/-- C9 (witness): the amended statement with an unparsable `sleep`. -/
theorem C9_witness :
    enrichAllNulls envTriv () ⟨Option.none, Option.none, Option.some "zz"⟩ =
      ((), Except.error RunError.valueError) :=
  C9_param_error envTriv () ⟨Option.none, Option.none, Option.some "zz"⟩
    (Or.inr (Or.inr (by decide)))

/-- C10 (counterexample): the claim "the patch passed to `update_row` always
has non-None values for the three business-key fields" is false: when the
row's own `site_event_entity` is NULL and the model's cleaned output leaves
it missing, the fixup writes the original `None` back into the patch. -/
theorem C10_counterexample :
    fixKeys (cleanedPatch (fun _ => PyVal.none))
        ⟨Option.none, Option.some "Madrid", Option.none⟩ "site_event_entity"
      = PyVal.none := by
  decide

/-- C10 (amended): after the fixup, `city` and `website` are always
non-None (falsy values are replaced by the key's value defaulted to `""`),
and `site_event_entity` is non-None whenever the row's original
`site_event_entity` is non-None — but it is restored verbatim, so a row
whose own key name is NULL can still yield a None `site_event_entity`. -/
theorem C10_key_fixup (filled : String → PyVal) (key : KeyD) :
    fixKeys filled key "city" ≠ PyVal.none ∧
    fixKeys filled key "website" ≠ PyVal.none ∧
    (∀ s, key.site_event_entity = Option.some s →
        fixKeys filled key "site_event_entity" ≠ PyVal.none) := by
  refine ⟨?_, ?_, ?_⟩
  · by_cases htr : pyTruthy (filled "city")
    · have he : fixKeys filled key "city" = filled "city" := by
        simp [fixKeys, htr]
      rw [he]
      exact pyTruthy_ne_none _ htr
    · have he : fixKeys filled key "city" = PyVal.str (key.city.getD "") := by
        simp [fixKeys, htr]
      rw [he]
      intro hc
      exact PyVal.noConfusion hc
  · by_cases htr : pyTruthy (filled "website")
    · have he : fixKeys filled key "website" = filled "website" := by
        simp [fixKeys, htr]
      rw [he]
      exact pyTruthy_ne_none _ htr
    · have he : fixKeys filled key "website" = PyVal.str (key.website.getD "") := by
        simp [fixKeys, htr]
      rw [he]
      intro hc
      exact PyVal.noConfusion hc
  · intro s hs
    by_cases htr : pyTruthy (filled "site_event_entity")
    · have he : fixKeys filled key "site_event_entity" = filled "site_event_entity" := by
        simp [fixKeys, htr]
      rw [he]
      exact pyTruthy_ne_none _ htr
    · have he : fixKeys filled key "site_event_entity" = optVal key.site_event_entity := by
        simp [fixKeys, htr]
      rw [he, hs]
      intro hc
      exact PyVal.noConfusion hc

/-- C10 (witness): with a present original key name, the fixed-up patch's
`site_event_entity` is non-None even when the model omitted every field. -/
theorem C10_witness :
    fixKeys (cleanedPatch (fun _ => PyVal.none))
        ⟨Option.some "E", Option.none, Option.none⟩ "site_event_entity" ≠ PyVal.none :=
  (C10_key_fixup (cleanedPatch (fun _ => PyVal.none))
    ⟨Option.some "E", Option.none, Option.none⟩).2.2 "E" rfl

end MadridEnricher
